import Mathlib

/-!
Shallow embedding of the basket / cart synchronization slice of the
food-ordering client (src/context/BusinessContext.tsx and
src/services/apiService.ts), together with an idealized model of the
remote WooCommerce Store-API service it talks to.

Conventions of the embedding:
* React state updates (setCart, setIsSyncing, ...) and the ref mirrors
  (cartRef, cartTokenRef) are collapsed into one explicit client-state
  record that is threaded through the operations; a set is immediate.
* AsyncStorage persistence is the storedToken / storedOrigin fields.
* The network is an environment: a server state plus a schedule of
  network outcomes.  An empty schedule means every request succeeds and
  no cart-token rotation happens; a schedule entry can make a request
  fail (transport failure or non-2xx status), rotate the cart token via
  the cart-token response header, and assign statuses to the
  sub-requests of a batch request.
* Every issued HTTP request is recorded in a trace so that theorems can
  speak about which requests an operation sends.
* A thrown JS exception is an Except.error; the threw flag of an
  operation result records whether an exception escaped to the caller.
-/

namespace FoodApp

/-- HTTP method, as the string method field of the TS code. -/
inductive Method where
  | GET
  | POST
  | PUT
  | DELETE
deriving DecidableEq, Repr

/-- Line item of the Store-API cart: product id, server-assigned item key,
quantity (src/model/interfaces.ts, LineItem; pricing fields are not
relevant to any claim and are omitted). -/
structure LineItem where
  id : Int
  key : String
  quantity : Int
deriving DecidableEq, Repr

/-- One shipping rate inside a package (src/model/interfaces.ts,
StoreApiShippingRate fields used by the code). -/
structure StoreApiShippingRate where
  rate_id : String
  method_id : String
  price : String
  selected : Bool
deriving DecidableEq, Repr

/-- Shipping-rate package (src/model/interfaces.ts, StoreApiShippingRates:
its only declared field is the shipping_rates array). -/
structure StoreApiShippingRates where
  shipping_rates : List StoreApiShippingRate
deriving DecidableEq, Repr

/-- The Store-API cart (src/model/interfaces.ts, StoreApiCart), restricted
to the fields the basket logic reads: items, items_count and
shipping_rates. -/
structure Cart where
  items : List LineItem
  items_count : Int
  shipping_rates : List StoreApiShippingRates
deriving DecidableEq, Repr

/-- JS property access of method_id on a shipping-rate package object: the
StoreApiShippingRates interface declares no such field, so the access made
by syncCart yields undefined. -/
def pkgMethodIdJs (_pkg : StoreApiShippingRates) : Option String := none

/-- JS property access of key on a shipping-rate package object: the
interface declares no such field, so the access yields undefined. -/
def pkgKeyJs (_pkg : StoreApiShippingRates) : Option String := none

/-- JS property access of shipping_method on a StoreApiCart: the interface
declares no such field, so the access made by syncCart yields undefined. -/
def cartShippingMethodJs (_c : Cart) : Option String := none

/-- Business (src/model/interfaces.ts, Business), restricted to the fields
the basket logic reads. -/
structure Business where
  id : Int
  name : String
deriving DecidableEq, Repr

/-- Sub-request of a Store-API batch request, as built by reorderItems:
path, method, the body fields id and quantity, and the Cart-Token header
value attached to the sub-request. -/
structure BatchSub where
  path : String
  method : Method
  body_id : Int
  body_quantity : Int
  cartTokenHeader : Option String
deriving DecidableEq, Repr

/-- Request body sent by the client, mirroring the JSON payloads of the TS
code.  addItem carries the product id as a string because
getCartUpdateEndpoint sends itemId.toString(). -/
inductive CartPayload where
  | addItem (id : String) (quantity : Int)
  | setQuantity (quantity : Int)
  | selectShippingRate (package_id : Int) (rate_id : String)
  | batchBody (requests : List BatchSub)
  | checkoutBody
  | emptyPayload
deriving DecidableEq, Repr

/-- Parsed JSON response body as seen by the client. -/
inductive Resp where
  | cartBody (c : Cart)
  | emptyArr
  | batchResp (statuses : List Nat)
  | okBody
deriving DecidableEq, Repr

/-- JS truthiness of a parsed successful response body: objects and arrays
(including the empty array returned for DELETE) are all truthy. -/
def respTruthy : Resp → Bool
  | .cartBody _ => true
  | .emptyArr => true
  | .batchResp _ => true
  | .okBody => true

/-- Default cart value used when a response body is read as a cart. -/
def emptyCart : Cart := { items := [], items_count := 0, shipping_rates := [] }

/-- Interpretation of a parsed response body as a StoreApiCart, as the TS
code does with the result of getWooCommerceCart (for GET /cart the server
model always answers with a cart body). -/
def respAsCart : Resp → Cart
  | .cartBody c => c
  | _ => emptyCart

/-- One request as issued on the wire: method, endpoint, body, and the
value of the Cart-Token request header (none when no header was set). -/
structure SentReq where
  method : Method
  endpoint : String
  payload : CartPayload
  cartTokenHeader : Option String
deriving DecidableEq, Repr

/-- State of the remote cart session held by the Store-API service
(external collaborator, modelled as the idealized environment of the
client): its line items and a counter for fresh item keys. -/
structure SrvState where
  items : List LineItem
  nextKey : Nat
deriving DecidableEq, Repr

/-- Server-computed item count: the sum of the line-item quantities. -/
def srvItemsCount (items : List LineItem) : Int :=
  (items.map (fun i => i.quantity)).sum

/-- The cart snapshot the service returns for GET /cart. -/
def SrvState.cart (s : SrvState) : Cart :=
  { items := s.items, items_count := srvItemsCount s.items, shipping_rates := [] }

/-- Server handling of an add-item body: merge into an existing line item
with the same product id, or append a new line item under a fresh key. -/
def srvAddItem (s : SrvState) (pid : Int) (qty : Int) : SrvState :=
  match s.items.find? (fun i => i.id == pid) with
  | some _ =>
      let bump := fun (i : LineItem) =>
        if i.id == pid then { i with quantity := i.quantity + qty } else i
      { s with items := s.items.map bump }
  | none =>
      { items := s.items ++ [{ id := pid, key := "k" ++ toString s.nextKey, quantity := qty }],
        nextKey := s.nextKey + 1 }

/-- Statuses assigned to the sub-requests of a batch: the schedule may give
the first few, the rest default to 200. -/
def padStatuses (n : Nat) (given : List Nat) : List Nat :=
  (List.range n).map (fun i => (given[i]?).getD 200)

/-- Server handling of the sub-requests of a batch request: an add-item
sub-request whose assigned status is below 400 is applied, the rest are
not. -/
def srvApplySubs (s : SrvState) (subs : List BatchSub) (sts : List Nat) : SrvState :=
  match subs, sts with
  | [], _ => s
  | _, [] => s
  | sub :: subs, st :: sts =>
      let s1 :=
        if sub.method == Method.POST && sub.path == "/wc/store/v1/cart/add-item" && st < 400
        then srvAddItem s sub.body_id sub.body_quantity
        else s
      srvApplySubs s1 subs sts

/-- Lookup of the line item addressed by an item-scoped endpoint: the
service resolves the URL /cart/items/key to its line item carrying that
key. -/
def srvFindByEndpoint (s : SrvState) (endpoint : String) : Option LineItem :=
  s.items.find? (fun i => endpoint == "/cart/items/" ++ i.key)

/-- Dispatch of one successful request by the Store-API service model.
DELETE endpoints answer with the updated cart body (which the client's
request helper then discards).  subStatuses comes from the network
schedule and only matters for batch requests. -/
def srvApply (s : SrvState) (m : Method) (endpoint : String) (p : CartPayload)
    (subStatuses : List Nat) : SrvState × Resp :=
  if m == Method.GET && endpoint == "/cart" then
    (s, Resp.cartBody s.cart)
  else if m == Method.POST && (endpoint == "/cart/add-item" || endpoint == "/cart/items") then
    match p with
    | .addItem idStr qty =>
        let s2 := srvAddItem s (idStr.toInt?.getD 0) qty
        (s2, Resp.cartBody s2.cart)
    | _ => (s, Resp.okBody)
  else if m == Method.DELETE && endpoint == "/cart/items" then
    let s2 : SrvState := { s with items := [] }
    (s2, Resp.cartBody s2.cart)
  else if m == Method.DELETE then
    match srvFindByEndpoint s endpoint with
    | some it =>
        let s2 : SrvState := { s with items := s.items.filter (fun i => i.key != it.key) }
        (s2, Resp.cartBody s2.cart)
    | none => (s, Resp.okBody)
  else if m == Method.PUT then
    match srvFindByEndpoint s endpoint, p with
    | some it, .setQuantity q =>
        let put := fun (i : LineItem) =>
          if i.key == it.key then { i with quantity := q } else i
        let s2 : SrvState := { s with items := s.items.map put }
        (s2, Resp.cartBody s2.cart)
    | _, _ => (s, Resp.okBody)
  else if m == Method.POST && endpoint == "/batch" then
    match p with
    | .batchBody subs =>
        let sts := padStatuses subs.length subStatuses
        (srvApplySubs s subs sts, Resp.batchResp sts)
    | _ => (s, Resp.okBody)
  else if m == Method.POST && endpoint == "/cart/select-shipping-rate" then
    (s, Resp.cartBody s.cart)
  else
    (s, Resp.okBody)

/-- One scheduled network outcome: whether the request succeeds (httpOk
false means a transport failure or non-2xx status, which the request
helper turns into a thrown error), the value of the cart-token response
header, and the statuses for the sub-requests of a batch. -/
structure NetStep where
  httpOk : Bool
  respToken : Option String
  subStatuses : List Nat
deriving DecidableEq, Repr

/-- Default network outcome when the schedule is exhausted: success, no
token rotation, all batch sub-requests succeed. -/
def defaultStep : NetStep := { httpOk := true, respToken := none, subStatuses := [] }

/-- The network environment: server state plus the outcome schedule. -/
structure Env where
  srv : SrvState
  schedule : List NetStep
deriving DecidableEq, Repr

/-- Pop the next scheduled outcome (default when exhausted). -/
def Env.next (env : Env) : NetStep × Env :=
  match env.schedule with
  | [] => (defaultStep, env)
  | s :: rest => (s, { env with schedule := rest })

/-- Client-side state of the BasketProvider, collapsing React state,
the ref mirrors and the AsyncStorage entries into one record:
cart and cartToken (with their refs), the persisted token entry at key
Cart:token, originBusiness (with its persisted entry), the isSyncing
flag, the pending conflict item and the conflict-modal flag, and the
isDelivery mode flag. -/
structure ClientState where
  cart : Option Cart
  cartToken : Option String
  storedToken : Option String
  originBusiness : Option Business
  storedOrigin : Option Business
  isSyncing : Bool
  pendingItem : Option (Int × Int)
  conflictModalVisible : Bool
  isDelivery : Bool
deriving DecidableEq, Repr

/-- Derived itemCount of the BasketProvider: cart items_count or 0 when
the cart is null. -/
def itemCount (st : ClientState) : Int :=
  match st.cart with
  | some c => c.items_count
  | none => 0

/-- Result of one call through the request helper of apiService. -/
structure FetchOut where
  result : Except Unit Resp
  st : ClientState
  env : Env
  sent : List SentReq
deriving Repr

/-- The request helper of apiService for a store apiType call: reads the
current cart token synchronously (getCartTokenValue) and attaches it as
the Cart-Token header when present, performs the fetch, then reads the
cart-token response header and saves the new token when it is present and
differs from the current one (this happens before the ok check), throws
on a non-ok response, returns the empty array for a DELETE without
parsing the body, and otherwise returns the parsed body. -/
def requestStore (st : ClientState) (env : Env) (m : Method) (endpoint : String)
    (p : CartPayload) : FetchOut :=
  let currentCartToken := st.cartToken
  let sentOne : SentReq :=
    { method := m, endpoint := endpoint, payload := p, cartTokenHeader := currentCartToken }
  let (step, env1) := env.next
  let st1 :=
    if step.respToken.isSome ∧ step.respToken ≠ currentCartToken then
      { st with cartToken := step.respToken, storedToken := step.respToken }
    else st
  if step.httpOk then
    let (srv2, resp) := srvApply env1.srv m endpoint p step.subStatuses
    let env2 : Env := { env1 with srv := srv2 }
    if m == Method.DELETE then
      { result := Except.ok Resp.emptyArr, st := st1, env := env2, sent := [sentOne] }
    else
      { result := Except.ok resp, st := st1, env := env2, sent := [sentOne] }
  else
    { result := Except.error (), st := st1, env := env1, sent := [sentOne] }

/-- getWooCommerceCart of apiService: GET /cart through the request helper
(it catches, logs and rethrows, so the outcome is that of the helper). -/
def getWooCommerceCart (st : ClientState) (env : Env) : FetchOut :=
  requestStore st env Method.GET "/cart" CartPayload.emptyPayload

/-- sendWooCommerceCartUpdate of apiService: one store request with the
given endpoint, method and body (catches, logs and rethrows). -/
def sendWooCommerceCartUpdate (st : ClientState) (env : Env) (endpoint : String)
    (m : Method) (p : CartPayload) : FetchOut :=
  requestStore st env m endpoint p

/-- Result of clearCart of apiService: the returned value is none when the
function falls through without issuing a request (JS undefined), and some
response otherwise. -/
structure ClearOut where
  result : Except Unit (Option Resp)
  st : ClientState
  env : Env
  sent : List SentReq
deriving Repr

/-- clearCart of apiService: only when a cart token is currently held does
it issue DELETE /cart/items through the request helper and return that
result; with no token it falls through and returns undefined. -/
def clearCart (st : ClientState) (env : Env) : ClearOut :=
  if st.cartToken.isSome then
    let f := requestStore st env Method.DELETE "/cart/items" CartPayload.emptyPayload
    match f.result with
    | Except.ok r => { result := Except.ok (some r), st := f.st, env := f.env, sent := f.sent }
    | Except.error e => { result := Except.error e, st := f.st, env := f.env, sent := f.sent }
  else
    { result := Except.ok none, st := st, env := env, sent := [] }

/-- sendWooCommerceCartBatch of apiService: POST /batch with the given
body (catches, logs and rethrows). -/
def sendWooCommerceCartBatch (st : ClientState) (env : Env) (p : CartPayload) : FetchOut :=
  requestStore st env Method.POST "/batch" p

/-- createOrder of apiService: POST checkout through the request helper;
after a successful checkout it saves a null cart token, which deletes the
persisted token entry and nulls the in-memory token; on failure it
rethrows. -/
def createOrder (st : ClientState) (env : Env) : FetchOut :=
  let f := requestStore st env Method.POST "checkout" CartPayload.checkoutBody
  match f.result with
  | Except.ok resp =>
      { result := Except.ok resp,
        st := { f.st with cartToken := none, storedToken := none },
        env := f.env, sent := f.sent }
  | Except.error e => { result := Except.error e, st := f.st, env := f.env, sent := f.sent }

/-- Result record of getCartUpdateEndpoint (BusinessContext helper). -/
structure StoreApiUpdatePayload where
  endpoint : String
  payload : CartPayload
  method : Method
deriving DecidableEq, Repr

/-- Helper of BusinessContext determining the Store-API endpoint, payload
and method for a single-item cart update: with no cart session, POST
/cart/items with id and quantity; with an existing line item for the
product, DELETE /cart/items/key when the new quantity is at most 0 and
PUT /cart/items/key otherwise; with no existing item and positive
quantity, POST /cart/add-item; otherwise no action (empty endpoint). -/
def getCartUpdateEndpoint (itemId : Int) (newQuantity : Int)
    (currentCart : Option Cart) : StoreApiUpdatePayload :=
  match currentCart with
  | none =>
      { endpoint := "/cart/items",
        payload := CartPayload.addItem (toString itemId) newQuantity,
        method := Method.POST }
  | some cart =>
      match cart.items.find? (fun i => i.id == itemId) with
      | some existingItem =>
          if newQuantity ≤ 0 then
            { endpoint := "/cart/items/" ++ existingItem.key,
              payload := CartPayload.emptyPayload,
              method := Method.DELETE }
          else
            { endpoint := "/cart/items/" ++ existingItem.key,
              payload := CartPayload.setQuantity newQuantity,
              method := Method.PUT }
      | none =>
          if newQuantity > 0 then
            { endpoint := "/cart/add-item",
              payload := CartPayload.addItem (toString itemId) newQuantity,
              method := Method.POST }
          else
            { endpoint := "", payload := CartPayload.emptyPayload, method := Method.POST }

/-- Result of one BasketProvider operation: the final client state and
environment, the trace of requests issued, and whether a JS exception
escaped to the caller. -/
structure OpResult where
  st : ClientState
  env : Env
  sent : List SentReq
  threw : Bool
deriving DecidableEq, Repr

/-- performBasketUpdate of BusinessContext: set isSyncing, compute the
endpoint from the current cart (cartRef), return early on an empty
endpoint; otherwise send the mutation, and if the response is truthy or
the method was DELETE re-fetch the full cart via getWooCommerceCart,
replace the local cart with it and clear the origin business (state and
persisted entry) when the fetched cart has items_count 0.  All errors are
caught and logged; the finally block resets isSyncing. -/
def performBasketUpdate (itemId : Int) (newQuantity : Int)
    (st : ClientState) (env : Env) : OpResult :=
  let st0 := { st with isSyncing := true }
  let currentCart := st0.cart
  let e := getCartUpdateEndpoint itemId newQuantity currentCart
  if e.endpoint == "" then
    { st := { st0 with isSyncing := false }, env := env, sent := [], threw := false }
  else
    let f1 := sendWooCommerceCartUpdate st0 env e.endpoint e.method e.payload
    match f1.result with
    | Except.error _ =>
        { st := { f1.st with isSyncing := false }, env := f1.env, sent := f1.sent,
          threw := false }
    | Except.ok resp =>
        if respTruthy resp || e.method == Method.DELETE then
          let f2 := getWooCommerceCart f1.st f1.env
          match f2.result with
          | Except.error _ =>
              { st := { f2.st with isSyncing := false }, env := f2.env,
                sent := f1.sent ++ f2.sent, threw := false }
          | Except.ok r2 =>
              let updatedCart := respAsCart r2
              let st2 := { f2.st with cart := some updatedCart }
              let st3 :=
                if updatedCart.items_count == 0 then
                  { st2 with originBusiness := none, storedOrigin := none }
                else st2
              { st := { st3 with isSyncing := false }, env := f2.env,
                sent := f1.sent ++ f2.sent, threw := false }
        else
          { st := { f1.st with isSyncing := false }, env := f1.env, sent := f1.sent,
            threw := false }

/-- updateBasket of BusinessContext: rejected as a no-op while isSyncing;
otherwise, for a positive quantity into a non-empty cart whose recorded
origin business differs from the active business (or no business is
active), record the pending item and show the conflict modal without any
request; for a positive quantity into an empty cart record the active
business as the new origin (state and persisted entry); then run
performBasketUpdate. -/
def updateBasket (activeBusiness : Option Business) (itemId : Int) (newQuantity : Int)
    (st : ClientState) (env : Env) : OpResult :=
  if st.isSyncing then
    { st := st, env := env, sent := [], threw := false }
  else if newQuantity > 0 ∧ itemCount st > 0 ∧
      (match st.originBusiness with
       | some origin => Option.map Business.id activeBusiness != some origin.id
       | none => false) = true then
    { st := { st with pendingItem := some (itemId, newQuantity), conflictModalVisible := true },
      env := env, sent := [], threw := false }
  else
    let st1 :=
      if newQuantity > 0 ∧ itemCount st == 0 then
        match activeBusiness with
        | some b => { st with originBusiness := some b, storedOrigin := some b }
        | none => st
      else st
    performBasketUpdate itemId newQuantity st1 env

/-- handleClearAndAdd of BusinessContext (the Clear and Add resolution of
the conflict modal): with no pending item do nothing; otherwise take the
pending item, hide the modal, set isSyncing, clear the server cart and
null the local cart, record the active business as the new origin, then
perform the pending add via performBasketUpdate.  Errors are caught and
logged; the finally block resets isSyncing. -/
def handleClearAndAdd (activeBusiness : Option Business)
    (st : ClientState) (env : Env) : OpResult :=
  match st.pendingItem with
  | none => { st := st, env := env, sent := [], threw := false }
  | some itemToProcess =>
      let st1 := { st with pendingItem := none, conflictModalVisible := false }
      let st2 := { st1 with isSyncing := true }
      let c := clearCart st2 env
      match c.result with
      | Except.error _ =>
          { st := { c.st with isSyncing := false }, env := c.env, sent := c.sent,
            threw := false }
      | Except.ok _ =>
          let st4 := { c.st with cart := none }
          let st5 :=
            match activeBusiness with
            | some b => { st4 with originBusiness := some b, storedOrigin := some b }
            | none => st4
          let r := performBasketUpdate itemToProcess.1 itemToProcess.2 st5 c.env
          { st := { r.st with isSyncing := false }, env := r.env,
            sent := c.sent ++ r.sent, threw := false }

/-- Cancel action of the conflict modal (Keep Existing): hide the modal
and discard the pending item; no request is issued. -/
def handleKeepExisting (st : ClientState) : ClientState :=
  { st with conflictModalVisible := false, pendingItem := none }

/-- Modelled from the spec: the shipping package identifier from the
configuration module src/constants/config, which is not among the
provided sources; the spec only names a package_id sent to
/cart/select-shipping-rate, so it is an opaque integer constant here.  It
is only used in the statically dead shipping branch of syncCart. -/
def SHIPPING_PACKAGE_ID : Int := 0

/-- Previous-order line item as consumed by reorderItems, which reads the
product_id and quantity fields of the order line items passed in by the
order-history screens. -/
structure ReorderItem where
  product_id : Int
  quantity : Int
deriving DecidableEq, Repr

/-- Shared tail of the catch block of reorderItems: resync by fetching
the cart from the server and replacing the local cart.  A failure of this
recovery fetch itself happens inside the catch block, so it escapes to
the caller; the finally block still resets isSyncing. -/
def reorderCatchResync (prev : List SentReq) (st : ClientState) (env : Env) : OpResult :=
  let f := getWooCommerceCart st env
  match f.result with
  | Except.ok resp =>
      { st := { f.st with cart := some (respAsCart resp), isSyncing := false },
        env := f.env, sent := prev ++ f.sent, threw := false }
  | Except.error _ =>
      { st := { f.st with isSyncing := false }, env := f.env, sent := prev ++ f.sent,
        threw := true }

/-- Count of failed sub-requests in a batch response, as computed by
reorderItems: the entries of the responses array with status at least
400; a missing responses array yields the empty list. -/
def countFailedSubs : Resp → Nat
  | Resp.batchResp sts => (sts.filter (fun s => 400 ≤ s)).length
  | _ => 0

/-- reorderItems of BusinessContext: rejected as a no-op while isSyncing;
otherwise set isSyncing, clear the current cart, and for an empty input
list just fetch the (empty) cart; for a non-empty list build one batch
request with one add-item sub-request per input line item (each
sub-request carrying the current cart token header) and send it as a
single POST /batch; if any sub-response has status at least 400 throw,
landing in the catch block, which resyncs by re-fetching the cart;
otherwise fetch the complete updated cart.  The finally block resets
isSyncing. -/
def reorderItems (items : List ReorderItem) (st : ClientState) (env : Env) : OpResult :=
  if st.isSyncing then
    { st := st, env := env, sent := [], threw := false }
  else
    let st0 := { st with isSyncing := true }
    let c := clearCart st0 env
    match c.result with
    | Except.error _ => reorderCatchResync c.sent c.st c.env
    | Except.ok _ =>
        let currentCartToken := c.st.cartToken
        if items.length == 0 then
          let f := getWooCommerceCart c.st c.env
          match f.result with
          | Except.ok resp =>
              { st := { f.st with cart := some (respAsCart resp), isSyncing := false },
                env := f.env, sent := c.sent ++ f.sent, threw := false }
          | Except.error _ => reorderCatchResync (c.sent ++ f.sent) f.st f.env
        else
          let batchRequests := items.map (fun item =>
            { path := "/wc/store/v1/cart/add-item", method := Method.POST,
              body_id := item.product_id, body_quantity := item.quantity,
              cartTokenHeader := currentCartToken : BatchSub })
          let fb := sendWooCommerceCartBatch c.st c.env (CartPayload.batchBody batchRequests)
          match fb.result with
          | Except.error _ => reorderCatchResync (c.sent ++ fb.sent) fb.st fb.env
          | Except.ok batchResponse =>
              if countFailedSubs batchResponse > 0 then
                reorderCatchResync (c.sent ++ fb.sent) fb.st fb.env
              else
                let f2 := getWooCommerceCart fb.st fb.env
                match f2.result with
                | Except.ok r2 =>
                    { st := { f2.st with cart := some (respAsCart r2), isSyncing := false },
                      env := f2.env, sent := c.sent ++ fb.sent ++ f2.sent, threw := false }
                | Except.error _ => reorderCatchResync (c.sent ++ fb.sent ++ f2.sent) f2.st f2.env

/-- Result of syncCart: the value the function returns (the response, or
the previously held cart when skipped or failed), plus state, environment
and trace. -/
structure SyncOut where
  value : Option Cart
  st : ClientState
  env : Env
  sent : List SentReq
deriving DecidableEq, Repr

/-- syncCart of BusinessContext: when isSyncing it is skipped and returns
the current cart; otherwise it sets isSyncing, sends the given request,
replaces the local cart with the response, and re-evaluates the shipping
method: it looks for a shipping-rate package whose method_id matches the
mode key, but the package objects carry no method_id field (the access
yields undefined), so the lookup never succeeds and the select-shipping-
rate request of that branch is never issued.  On error it returns the
previously held cart; the finally block resets isSyncing. -/
def syncCart (st : ClientState) (env : Env) (endpoint : String) (m : Method)
    (p : CartPayload) : SyncOut :=
  if st.isSyncing then
    { value := st.cart, st := st, env := env, sent := [] }
  else
    let st0 := { st with isSyncing := true }
    let f := sendWooCommerceCartUpdate st0 env endpoint m p
    match f.result with
    | Except.error _ =>
        { value := st.cart, st := { f.st with isSyncing := false }, env := f.env,
          sent := f.sent }
    | Except.ok resp =>
        let finalCart := respAsCart resp
        let st1 := { f.st with cart := some finalCart }
        let methodKey := if st1.isDelivery then "flat_rate" else "local_pickup"
        let defaultMethod :=
          finalCart.shipping_rates.find? (fun rate => pkgMethodIdJs rate == some methodKey)
        match defaultMethod with
        | some dm =>
            if cartShippingMethodJs finalCart ≠ pkgKeyJs dm then
              let fu := requestStore st1 f.env Method.POST "/cart/select-shipping-rate"
                (CartPayload.selectShippingRate SHIPPING_PACKAGE_ID
                  ((cartShippingMethodJs finalCart).getD ""))
              { value := some finalCart, st := { fu.st with isSyncing := false },
                env := fu.env, sent := f.sent ++ fu.sent }
            else
              { value := some finalCart, st := { st1 with isSyncing := false }, env := f.env,
                sent := f.sent }
        | none =>
            { value := some finalCart, st := { st1 with isSyncing := false }, env := f.env,
              sent := f.sent }

/-- One guarded basket mutation call: the active business at the time of
the call, the product id and the requested new quantity. -/
structure BasketOp where
  activeBusiness : Option Business
  itemId : Int
  newQuantity : Int
deriving DecidableEq, Repr

/-- Sequential application of updateBasket calls, one at a time, recording
the result of every call. -/
def runBasketOps : List BasketOp → ClientState → Env → List OpResult
  | [], _, _ => []
  | op :: ops, st, env =>
      let r := updateBasket op.activeBusiness op.itemId op.newQuantity st env
      r :: runBasketOps ops r.st r.env

/-- Item-scoped endpoints are distinct from the clear-all endpoint. -/
theorem itemEndpoint_ne_clear (k : String) :
    (("/cart/items/" ++ k : String) == "/cart/items") = false := by
  have hne : ("/cart/items/" ++ k : String) ≠ "/cart/items" := by
    intro h
    have hd := congrArg String.data h
    rw [String.data_append] at hd
    have hlen := congrArg List.length hd
    rw [List.length_append] at hlen
    have h12 : "/cart/items/".data.length = 12 := rfl
    have h11 : "/cart/items".data.length = 11 := rfl
    omega
  simp [hne]

/-- Comparison of two item-scoped endpoints reduces to comparison of the
item keys. -/
theorem itemEndpoint_beq (a b : String) :
    (("/cart/items/" ++ a : String) == ("/cart/items/" ++ b)) = (a == b) := by
  by_cases h : a = b
  · subst h; simp
  · have hne : ("/cart/items/" ++ a : String) ≠ ("/cart/items/" ++ b) := by
      intro he
      apply h
      have hd := congrArg String.data he
      rw [String.data_append, String.data_append] at hd
      exact String.ext (List.append_cancel_left hd)
    simp [hne, h]

/-- Behavior of the request helper under an empty schedule: the request
succeeds, no token is rotated, the server applies the request, and a
DELETE yields the empty array. -/
theorem requestStore_nil (st : ClientState) (env : Env) (m : Method) (e : String)
    (p : CartPayload) (h : env.schedule = []) :
    requestStore st env m e p =
      { result := Except.ok (if m == Method.DELETE then Resp.emptyArr
                             else (srvApply env.srv m e p []).2),
        st := st,
        env := { srv := (srvApply env.srv m e p []).1, schedule := [] },
        sent := [{ method := m, endpoint := e, payload := p,
                   cartTokenHeader := st.cartToken }] } := by
  obtain ⟨srv, sched⟩ := env
  simp only [Env.schedule] at h
  subst h
  cases m <;> simp [requestStore, Env.next, defaultStep]

/-- Dispatch: GET /cart answers with the current server cart. -/
theorem srvApply_get_cart (s : SrvState) (p : CartPayload) (sts : List Nat) :
    srvApply s Method.GET "/cart" p sts = (s, Resp.cartBody s.cart) := rfl

/-- Dispatch: POST /cart/add-item with an add-item body adds the item. -/
theorem srvApply_add_item (s : SrvState) (idStr : String) (qty : Int) (sts : List Nat) :
    srvApply s Method.POST "/cart/add-item" (CartPayload.addItem idStr qty) sts =
      (srvAddItem s (idStr.toInt?.getD 0) qty,
       Resp.cartBody (srvAddItem s (idStr.toInt?.getD 0) qty).cart) := rfl

/-- Dispatch: POST /cart/items with an add-item body adds the item. -/
theorem srvApply_add_items (s : SrvState) (idStr : String) (qty : Int) (sts : List Nat) :
    srvApply s Method.POST "/cart/items" (CartPayload.addItem idStr qty) sts =
      (srvAddItem s (idStr.toInt?.getD 0) qty,
       Resp.cartBody (srvAddItem s (idStr.toInt?.getD 0) qty).cart) := rfl

/-- Dispatch: DELETE /cart/items empties the server cart. -/
theorem srvApply_clear (s : SrvState) (p : CartPayload) (sts : List Nat) :
    srvApply s Method.DELETE "/cart/items" p sts =
      ({ s with items := [] }, Resp.cartBody (SrvState.cart { s with items := [] })) := rfl

/-- Dispatch: POST /batch applies the sub-requests under their padded
statuses and answers with those statuses. -/
theorem srvApply_batch (s : SrvState) (subs : List BatchSub) (sts : List Nat) :
    srvApply s Method.POST "/batch" (CartPayload.batchBody subs) sts =
      (srvApplySubs s subs (padStatuses subs.length sts),
       Resp.batchResp (padStatuses subs.length sts)) := rfl

/-- Resolution of an item-scoped endpoint built from a key: the first
server item with that key. -/
theorem srvFindByEndpoint_append (s : SrvState) (k : String) :
    srvFindByEndpoint s ("/cart/items/" ++ k) = s.items.find? (fun i => k == i.key) := by
  unfold srvFindByEndpoint
  congr 1
  funext i
  exact itemEndpoint_beq k i.key

/-- Dispatch: DELETE on an item-scoped endpoint removes the addressed
item when it exists. -/
theorem srvApply_delete_key (s : SrvState) (k : String) (p : CartPayload) (sts : List Nat) :
    srvApply s Method.DELETE ("/cart/items/" ++ k) p sts =
      (match srvFindByEndpoint s ("/cart/items/" ++ k) with
       | some it =>
           ({ s with items := s.items.filter (fun i => i.key != it.key) },
            Resp.cartBody (SrvState.cart { s with items := s.items.filter (fun i => i.key != it.key) }))
       | none => (s, Resp.okBody)) := by
  simp only [srvApply, itemEndpoint_ne_clear]
  cases srvFindByEndpoint s ("/cart/items/" ++ k) <;> rfl

/-- Dispatch: PUT on an item-scoped endpoint with a quantity body updates
the addressed item when it exists. -/
theorem srvApply_put_key (s : SrvState) (k : String) (q : Int) (sts : List Nat) :
    srvApply s Method.PUT ("/cart/items/" ++ k) (CartPayload.setQuantity q) sts =
      (match srvFindByEndpoint s ("/cart/items/" ++ k) with
       | some it =>
           let upd := s.items.map (fun i => if i.key == it.key then { i with quantity := q } else i)
           ({ s with items := upd }, Resp.cartBody (SrvState.cart { s with items := upd }))
       | none => (s, Resp.okBody)) := by
  simp only [srvApply]
  cases srvFindByEndpoint s ("/cart/items/" ++ k) <;> rfl

/-- GET /cart through the request helper under an empty schedule: answers
the server cart snapshot and leaves the environment unchanged. -/
theorem getWooCommerceCart_nil (st : ClientState) (env : Env) (h : env.schedule = []) :
    getWooCommerceCart st env =
      { result := Except.ok (Resp.cartBody env.srv.cart), st := st, env := env,
        sent := [{ method := Method.GET, endpoint := "/cart",
                   payload := CartPayload.emptyPayload,
                   cartTokenHeader := st.cartToken }] } := by
  rw [getWooCommerceCart, requestStore_nil st env _ _ _ h, srvApply_get_cart]
  obtain ⟨srv, sched⟩ := env
  simp only [Env.schedule] at h
  subst h
  rfl

/-- Every parsed successful response body is truthy in JS. -/
theorem respTruthy_true (r : Resp) : respTruthy r = true := by
  cases r <;> rfl

/-- Behavior of performBasketUpdate under an empty schedule: a no-action
endpoint yields no request; otherwise the computed mutation request is
sent, the server applies it, a GET /cart follows, the local cart becomes
the server cart, and the origin is cleared exactly when the fetched cart
has items_count 0. -/
theorem performBasketUpdate_nil (i q : Int) (st : ClientState) (env : Env)
    (h : env.schedule = []) :
    performBasketUpdate i q st env =
      (if (getCartUpdateEndpoint i q st.cart).endpoint == "" then
        { st := { st with isSyncing := false }, env := env, sent := [], threw := false }
      else
        let e := getCartUpdateEndpoint i q st.cart
        let srv2 := (srvApply env.srv e.method e.endpoint e.payload []).1
        let updatedCart := SrvState.cart srv2
        let st3 :=
          if updatedCart.items_count == 0 then
            { st with cart := some updatedCart, isSyncing := false, originBusiness := none, storedOrigin := none }
          else { st with cart := some updatedCart, isSyncing := false }
        { st := st3,
          env := { srv := srv2, schedule := [] },
          sent := [{ method := e.method, endpoint := e.endpoint, payload := e.payload,
                     cartTokenHeader := st.cartToken },
                   { method := Method.GET, endpoint := "/cart",
                     payload := CartPayload.emptyPayload, cartTokenHeader := st.cartToken }],
          threw := false }) := by
  obtain ⟨cart, tok, stok, ob, sob, sync, pend, modal, isdel⟩ := st
  obtain ⟨srv, sched⟩ := env
  simp only [Env.schedule] at h
  subst h
  simp only [performBasketUpdate, sendWooCommerceCartUpdate]
  rw [requestStore_nil _ _ _ _ _ rfl]
  split
  · rfl
  · simp only []
    rw [getWooCommerceCart_nil _ _ rfl]
    cases hm : (getCartUpdateEndpoint i q cart).method <;>
      simp [respTruthy_true, respAsCart] <;> split <;> simp

/-- Single-step facts about performBasketUpdate under an empty schedule:
isSyncing is reset, the schedule stays empty, and whenever any request was
issued the last one is GET /cart and the local cart afterwards is exactly
the server cart. -/
theorem performBasketUpdate_step_nil (i q : Int) (st : ClientState) (env : Env)
    (h : env.schedule = []) :
    (performBasketUpdate i q st env).st.isSyncing = false ∧
    (performBasketUpdate i q st env).env.schedule = [] ∧
    ((performBasketUpdate i q st env).sent ≠ [] →
      (∃ g, (performBasketUpdate i q st env).sent.getLast? = some g ∧
            g.method = Method.GET ∧ g.endpoint = "/cart") ∧
      (performBasketUpdate i q st env).st.cart =
        some (SrvState.cart (performBasketUpdate i q st env).env.srv)) := by
  rw [performBasketUpdate_nil _ _ _ _ h]
  split
  · simpa using h
  · dsimp only
    split <;> simp

/-- Single-step guard and resynchronization facts about updateBasket under
an empty schedule: isSyncing is false again afterwards, the schedule stays
empty, and whenever the call issued any request at all its last request is
GET /cart and the resulting local cart is exactly the server cart. -/
theorem updateBasket_step_nil (a : Option Business) (i q : Int) (st : ClientState)
    (env : Env) (h1 : st.isSyncing = false) (h : env.schedule = []) :
    (updateBasket a i q st env).st.isSyncing = false ∧
    (updateBasket a i q st env).env.schedule = [] ∧
    ((updateBasket a i q st env).sent ≠ [] →
      (∃ g, (updateBasket a i q st env).sent.getLast? = some g ∧
            g.method = Method.GET ∧ g.endpoint = "/cart") ∧
      (updateBasket a i q st env).st.cart =
        some (SrvState.cart (updateBasket a i q st env).env.srv)) := by
  rw [updateBasket.eq_def]
  split
  · simp_all
  · split
    · simp [h1, h]
    · exact performBasketUpdate_step_nil i q _ env h

/-- C1: for every sequence of add/update/remove basket mutations applied
one at a time through the guarded updateBasket entry point, with every
request succeeding, each operation that issued any request at all ends
with a re-fetch of the full cart (its last request is GET /cart, the
mutation response body is not what the local cart is set from), and the
locally held Cart after the operation equals the server cart state that
fresh fetch returns: no drift. -/
theorem c1_no_drift (ops : List BasketOp) (st : ClientState) (env : Env)
    (h1 : st.isSyncing = false) (h : env.schedule = []) :
    ∀ r ∈ runBasketOps ops st env,
      r.sent ≠ [] →
      (∃ g, r.sent.getLast? = some g ∧ g.method = Method.GET ∧ g.endpoint = "/cart") ∧
      r.st.cart = some (SrvState.cart r.env.srv) := by
  induction ops generalizing st env with
  | nil =>
      intro r hr
      simp [runBasketOps] at hr
  | cons op ops ih =>
      intro r hr
      simp only [runBasketOps, List.mem_cons] at hr
      obtain h0 | h0 := hr
      · subst h0
        exact (updateBasket_step_nil op.activeBusiness op.itemId op.newQuantity st env h1 h).2.2
      · have hstep := updateBasket_step_nil op.activeBusiness op.itemId op.newQuantity st env h1 h
        exact ih _ _ hstep.1 hstep.2.1 r h0

/-- Business fixture used by concrete witnesses. -/
def bizA : Business := { id := 1, name := "A" }

/-- Second business fixture used by concrete witnesses. -/
def bizB : Business := { id := 2, name := "B" }

/-- Client state right after the initial cart load against a fresh server
session: an empty cart, no token, no origin, not syncing. -/
def stInit : ClientState :=
  { cart := some emptyCart, cartToken := none, storedToken := none,
    originBusiness := none, storedOrigin := none, isSyncing := false,
    pendingItem := none, conflictModalVisible := false, isDelivery := true }

/-- Fresh server session with an all-success schedule. -/
def envInit : Env := { srv := { items := [], nextKey := 0 }, schedule := [] }

/-- Witness for C1 at a concrete input: adding product 42 once from the
initial state issues requests and leaves the local cart equal to the
server cart. -/
theorem c1_no_drift_witness :
    (updateBasket (some bizA) 42 1 stInit envInit).sent ≠ [] ∧
    (updateBasket (some bizA) 42 1 stInit envInit).st.cart =
      some (SrvState.cart (updateBasket (some bizA) 42 1 stInit envInit).env.srv) := by
  have h := c1_no_drift [{ activeBusiness := some bizA, itemId := 42, newQuantity := 1 }]
    stInit envInit rfl rfl (updateBasket (some bizA) 42 1 stInit envInit)
    (by simp [runBasketOps]) (by decide)
  exact ⟨by decide, h.2⟩

/-- Line item fixture: product 7 under server key abc with quantity 2. -/
def itemA7 : LineItem := { id := 7, key := "abc", quantity := 2 }

/-- Cart fixture holding itemA7. -/
def cartA7 : Cart := { items := [itemA7], items_count := 2, shipping_rates := [] }

/-- Environment fixture whose server session holds itemA7. -/
def envA7 : Env := { srv := { items := [itemA7], nextKey := 1 }, schedule := [] }

/-- C2: with a current Cart available, setItemQuantity issues exactly the
request determined by the dispatch rule: no existing line item and a
positive quantity is an add (POST /cart/add-item with the stringified id
and the quantity); an existing line item and a positive quantity is an
update (PUT /cart/items/key with the quantity); an existing line item and
a quantity at most 0 is a remove (DELETE /cart/items/key); and on an
empty cart, adding product 42 with quantity 1 produces one POST
/cart/add-item with id "42" and quantity 1 followed by one GET /cart,
after which the local itemCount is 1. -/
theorem c2_dispatch_rule (c : Cart) (itemId newQuantity : Int) :
    (c.items.find? (fun i => i.id == itemId) = none → 0 < newQuantity →
      getCartUpdateEndpoint itemId newQuantity (some c) =
        { endpoint := "/cart/add-item",
          payload := CartPayload.addItem (toString itemId) newQuantity,
          method := Method.POST }) ∧
    (∀ it, c.items.find? (fun i => i.id == itemId) = some it → 0 < newQuantity →
      getCartUpdateEndpoint itemId newQuantity (some c) =
        { endpoint := "/cart/items/" ++ it.key,
          payload := CartPayload.setQuantity newQuantity,
          method := Method.PUT }) ∧
    (∀ it, c.items.find? (fun i => i.id == itemId) = some it → newQuantity ≤ 0 →
      getCartUpdateEndpoint itemId newQuantity (some c) =
        { endpoint := "/cart/items/" ++ it.key,
          payload := CartPayload.emptyPayload,
          method := Method.DELETE }) ∧
    ((updateBasket (some bizA) 42 1 stInit envInit).sent =
      [{ method := Method.POST, endpoint := "/cart/add-item",
         payload := CartPayload.addItem "42" 1, cartTokenHeader := none },
       { method := Method.GET, endpoint := "/cart",
         payload := CartPayload.emptyPayload, cartTokenHeader := none }] ∧
     itemCount (updateBasket (some bizA) 42 1 stInit envInit).st = 1) := by
  refine ⟨?_, ?_, ?_, by decide⟩
  · intro hf hq
    simp [getCartUpdateEndpoint, hf, hq]
  · intro it hf hq
    have hq2 : ¬ newQuantity ≤ 0 := by omega
    simp [getCartUpdateEndpoint, hf, hq2]
  · intro it hf hq
    simp [getCartUpdateEndpoint, hf, hq]

/-- Witness for C2 at concrete inputs: the three dispatch cases evaluated
on concrete carts. -/
theorem c2_dispatch_rule_witness :
    getCartUpdateEndpoint 42 1 (some emptyCart) =
      { endpoint := "/cart/add-item", payload := CartPayload.addItem "42" 1,
        method := Method.POST } ∧
    getCartUpdateEndpoint 7 3 (some cartA7) =
      { endpoint := "/cart/items/abc", payload := CartPayload.setQuantity 3,
        method := Method.PUT } ∧
    getCartUpdateEndpoint 7 0 (some cartA7) =
      { endpoint := "/cart/items/abc", payload := CartPayload.emptyPayload,
        method := Method.DELETE } := by
  refine ⟨(c2_dispatch_rule emptyCart 42 1).1 rfl (by decide), ?_, ?_⟩
  · have h := (c2_dispatch_rule cartA7 7 3).2.1 itemA7 (by decide) (by decide)
    simpa using h
  · have h := (c2_dispatch_rule cartA7 7 0).2.2.1 itemA7 (by decide) (by decide)
    simpa using h

/-- Client state with a mutation in flight (isSyncing) and a pending
conflict item, as reached when the conflict modal is open for item 9 and
another mutation has started; holds cartA7 with origin business A. -/
def stBusyPending : ClientState :=
  { cart := some cartA7, cartToken := some "t", storedToken := some "t",
    originBusiness := some bizA, storedOrigin := some bizA, isSyncing := true,
    pendingItem := some (9, 1), conflictModalVisible := true, isDelivery := true }

/-- Counterexample to C3: the clear mutation of the conflict resolution is
not guarded by the in-flight flag: invoked while another mutation is in
flight (isSyncing true), handleClearAndAdd still issues its DELETE
/cart/items clear request (followed by the pending add) instead of being
rejected as a no-op, so a second mutating cart operation does go on the
wire while one is in flight. -/
theorem c3_counterexample :
    stBusyPending.isSyncing = true ∧
    (handleClearAndAdd (some bizB) stBusyPending envA7).sent ≠ [] ∧
    (handleClearAndAdd (some bizB) stBusyPending envA7).sent.head? =
      some { method := Method.DELETE, endpoint := "/cart/items",
             payload := CartPayload.emptyPayload, cartTokenHeader := some "t" } := by
  decide

/-- Each performBasketUpdate call puts at most one non-GET request on the
wire under an empty schedule. -/
theorem performBasketUpdate_mutCount (i q : Int) (st : ClientState) (env : Env)
    (h : env.schedule = []) :
    ((performBasketUpdate i q st env).sent.filter
      (fun r => r.method != Method.GET)).length ≤ 1 := by
  rw [performBasketUpdate_nil _ _ _ _ h]
  split
  · simp
  · dsimp only
    simp only [List.filter]
    split <;> split <;> simp_all

/-- C3 amended: the mutation entry points setItemQuantity (updateBasket)
and batchAdd (reorderItems) arriving while a mutation is in flight are
rejected as no-ops (no request, state returned unchanged), and the
internal syncCart helper returns the last-known Cart when skipped, so two
immediate setItemQuantity calls perform at most one network mutation; the
conflict-resolution clear (handleClearAndAdd) however carries no such
guard. -/
theorem c3_amended_guard :
    (∀ (st : ClientState) (env : Env) (a : Option Business) (i q : Int),
      st.isSyncing = true →
      updateBasket a i q st env = { st := st, env := env, sent := [], threw := false }) ∧
    (∀ (st : ClientState) (env : Env) (items : List ReorderItem),
      st.isSyncing = true →
      reorderItems items st env = { st := st, env := env, sent := [], threw := false }) ∧
    (∀ (st : ClientState) (env : Env) (e : String) (m : Method) (p : CartPayload),
      st.isSyncing = true →
      syncCart st env e m p = { value := st.cart, st := st, env := env, sent := [] }) ∧
    (∀ (st : ClientState) (env : Env) (a : Option Business) (i q : Int),
      st.isSyncing = false → env.schedule = [] →
      ((updateBasket a i q st env).sent.filter
        (fun r => r.method != Method.GET)).length ≤ 1) := by
  refine ⟨?_, ?_, ?_, ?_⟩
  · intro st env a i q hb
    rw [updateBasket.eq_def]
    simp [hb]
  · intro st env items hb
    rw [reorderItems.eq_def]
    simp [hb]
  · intro st env e m p hb
    rw [syncCart.eq_def]
    simp [hb]
  · intro st env a i q h1 h
    rw [updateBasket.eq_def]
    split
    · simp_all
    · split
      · simp
      · exact performBasketUpdate_mutCount i q _ env h

/-- Witness for C3 amended at concrete inputs: a busy-state updateBasket
call is a no-op and a fresh add performs at most one mutation. -/
theorem c3_amended_guard_witness :
    updateBasket (some bizB) 9 1 stBusyPending envA7 =
      { st := stBusyPending, env := envA7, sent := [], threw := false } ∧
    reorderItems [{ product_id := 5, quantity := 2 }] stBusyPending envA7 =
      { st := stBusyPending, env := envA7, sent := [], threw := false } ∧
    syncCart stBusyPending envA7 "/cart" Method.GET CartPayload.emptyPayload =
      { value := some cartA7, st := stBusyPending, env := envA7, sent := [] } ∧
    ((updateBasket (some bizA) 42 1 stInit envInit).sent.filter
      (fun r => r.method != Method.GET)).length ≤ 1 := by
  refine ⟨c3_amended_guard.1 stBusyPending envA7 (some bizB) 9 1 rfl,
          c3_amended_guard.2.1 stBusyPending envA7 _ rfl,
          ?_,
          c3_amended_guard.2.2.2 stInit envInit (some bizA) 42 1 rfl rfl⟩
  have h := c3_amended_guard.2.2.1 stBusyPending envA7 "/cart" Method.GET
    CartPayload.emptyPayload rfl
  simpa using h

/-- Item-scoped endpoints are nonempty strings. -/
theorem itemEndpoint_ne_empty (k : String) :
    (("/cart/items/" ++ k : String) == "") = false := by
  have hne : ("/cart/items/" ++ k : String) ≠ "" := by
    intro h
    have hd := congrArg String.data h
    rw [String.data_append] at hd
    have hlen := congrArg List.length hd
    rw [List.length_append] at hlen
    have h12 : "/cart/items/".data.length = 12 := rfl
    have h0 : "".data.length = 0 := rfl
    omega
  simp [hne]

/-- A positive quantity never yields the no-action empty endpoint. -/
theorem getCartUpdateEndpoint_pos_ne (i q : Int) (c : Cart) (hq : 0 < q) :
    ((getCartUpdateEndpoint i q (some c)).endpoint == "") = false := by
  simp only [getCartUpdateEndpoint]
  cases hfind : c.items.find? (fun x => x.id == i) with
  | some it =>
      have hq2 : ¬ q ≤ 0 := by omega
      simp [hq2, itemEndpoint_ne_empty]
  | none => simp [hq]

/-- Sum of positive quantities is nonnegative. -/
theorem srvItemsCount_nonneg (l : List LineItem) (hpos : ∀ x ∈ l, 0 < x.quantity) :
    0 ≤ srvItemsCount l := by
  induction l with
  | nil => simp [srvItemsCount]
  | cons x xs ih =>
      have hx := hpos x (by simp)
      have hxs := ih (fun y hy => hpos y (by simp [hy]))
      simp only [srvItemsCount, List.map_cons, List.sum_cons] at *
      omega

/-- Sum of positive quantities over a nonempty list is positive. -/
theorem srvItemsCount_pos (l : List LineItem) (hpos : ∀ x ∈ l, 0 < x.quantity)
    (hne : l ≠ []) : 0 < srvItemsCount l := by
  cases l with
  | nil => simp at hne
  | cons x xs =>
      have hx := hpos x (by simp)
      have hxs := srvItemsCount_nonneg xs (fun y hy => hpos y (by simp [hy]))
      simp only [srvItemsCount, List.map_cons, List.sum_cons] at *
      omega

/-- Positivity survives removing items. -/
theorem pos_filter (l : List LineItem) (p : LineItem → Bool)
    (hpos : ∀ x ∈ l, 0 < x.quantity) : ∀ x ∈ l.filter p, 0 < x.quantity :=
  fun x hx => hpos x (List.mem_of_mem_filter hx)

/-- Positivity survives a quantity update to a positive value. -/
theorem pos_put (l : List LineItem) (k : String) (q : Int) (hq : 0 < q)
    (hpos : ∀ x ∈ l, 0 < x.quantity) :
    ∀ x ∈ l.map (fun i => if i.key == k then { i with quantity := q } else i),
      0 < x.quantity := by
  intro x hx
  obtain ⟨y, hy, rfl⟩ := List.mem_map.mp hx
  have := hpos y hy
  split <;> simpa

/-- Positivity survives a server-side add of a positive quantity. -/
theorem pos_srvAddItem (s : SrvState) (pid q : Int) (hq : 0 < q)
    (hpos : ∀ x ∈ s.items, 0 < x.quantity) :
    ∀ x ∈ (srvAddItem s pid q).items, 0 < x.quantity := by
  unfold srvAddItem
  cases hf : s.items.find? (fun i => i.id == pid) with
  | some it =>
      intro x hx
      simp only [List.mem_map] at hx
      obtain ⟨y, hy, rfl⟩ := hx
      have hyq := hpos y hy
      split
      · simp only [LineItem.quantity] at *
        omega
      · exact hyq
  | none =>
      intro x hx
      simp only [List.mem_append, List.mem_singleton] at hx
      rcases hx with h1 | h1
      · exact hpos x h1
      · subst h1; simpa using hq

/-- The coupled client/server invariant behind the origin property: the
local cart is the server cart snapshot, all server line items have
positive quantities, a cart with items has a recorded origin business, an
empty cart has none, and no mutation is in flight. -/
def GoodState (st : ClientState) (env : Env) : Prop :=
  st.cart = some (SrvState.cart env.srv) ∧
  (∀ x ∈ env.srv.items, 0 < x.quantity) ∧
  (0 < itemCount st → st.originBusiness.isSome = true) ∧
  (itemCount st = 0 → st.originBusiness = none) ∧
  st.isSyncing = false

/-- performBasketUpdate preserves the coupled invariant under an empty
schedule, given that the origin is already recorded when the call adds
into an empty cart (updateBasket arranges this before calling). -/
theorem performBasketUpdate_preserves (i q : Int) (st : ClientState) (env : Env)
    (h : env.schedule = [])
    (hcart : st.cart = some (SrvState.cart env.srv))
    (hpos : ∀ x ∈ env.srv.items, 0 < x.quantity)
    (h3 : 0 < itemCount st → st.originBusiness.isSome = true)
    (hadd : 0 < q → itemCount st = 0 → st.originBusiness.isSome = true)
    (h4 : q ≤ 0 → itemCount st = 0 → st.originBusiness = none) :
    GoodState (performBasketUpdate i q st env).st (performBasketUpdate i q st env).env := by
  have hic : itemCount st = srvItemsCount env.srv.items := by
    simp [itemCount, hcart, SrvState.cart]
  rw [hic] at h3 hadd h4
  rw [performBasketUpdate_nil _ _ _ _ h, hcart]
  simp only [getCartUpdateEndpoint, SrvState.cart]
  cases hfind : env.srv.items.find? (fun x => x.id == i) with
  | some it =>
      have hmem := List.mem_of_find?_eq_some hfind
      have hcount : 0 < srvItemsCount env.srv.items :=
        srvItemsCount_pos env.srv.items hpos (List.ne_nil_of_mem hmem)
      by_cases hq : q ≤ 0
      · simp only [if_pos hq, itemEndpoint_ne_empty, Bool.false_eq_true, if_false]
        rw [srvApply_delete_key]
        cases hf2 : srvFindByEndpoint env.srv ("/cart/items/" ++ it.key) with
        | some it2 =>
            dsimp only
            split
            · exact ⟨rfl, pos_filter _ _ hpos, by simp_all [itemCount, SrvState.cart], by simp, rfl⟩
            · refine ⟨rfl, pos_filter _ _ hpos, fun _ => h3 hcount, ?_, rfl⟩
              intro hc0
              simp only [itemCount, SrvState.cart] at hc0
              simp_all
        | none =>
            dsimp only
            split
            · exact ⟨rfl, hpos, by simp_all [itemCount, SrvState.cart], by simp, rfl⟩
            · refine ⟨rfl, hpos, fun _ => h3 hcount, ?_, rfl⟩
              intro hc0
              simp only [itemCount, SrvState.cart] at hc0
              simp_all
      · simp only [if_neg hq, itemEndpoint_ne_empty, Bool.false_eq_true, if_false]
        rw [srvApply_put_key]
        have hq2 : 0 < q := by omega
        cases hf2 : srvFindByEndpoint env.srv ("/cart/items/" ++ it.key) with
        | some it2 =>
            dsimp only
            split
            · exact ⟨rfl, pos_put _ _ _ hq2 hpos, by simp_all [itemCount, SrvState.cart], by simp, rfl⟩
            · refine ⟨rfl, pos_put _ _ _ hq2 hpos, fun _ => h3 hcount, ?_, rfl⟩
              intro hc0
              simp only [itemCount, SrvState.cart] at hc0
              simp_all
        | none =>
            dsimp only
            split
            · exact ⟨rfl, hpos, by simp_all [itemCount, SrvState.cart], by simp, rfl⟩
            · refine ⟨rfl, hpos, fun _ => h3 hcount, ?_, rfl⟩
              intro hc0
              simp only [itemCount, SrvState.cart] at hc0
              simp_all
  | none =>
      by_cases hq : 0 < q
      · have horigin : st.originBusiness.isSome = true := by
          by_cases h0 : srvItemsCount env.srv.items = 0
          · exact hadd hq h0
          · have hnn := srvItemsCount_nonneg env.srv.items hpos
            exact h3 (by omega)
        have hne : (("/cart/add-item" : String) == "") = false := rfl
        simp only [if_pos hq, hne, Bool.false_eq_true, if_false]
        rw [srvApply_add_item]
        dsimp only
        split
        · exact ⟨rfl, pos_srvAddItem _ _ _ hq hpos, by simp_all [itemCount, SrvState.cart], by simp, rfl⟩
        · refine ⟨rfl, pos_srvAddItem _ _ _ hq hpos, fun _ => horigin, ?_, rfl⟩
          intro hc0
          simp only [itemCount, SrvState.cart] at hc0
          simp_all
      · have hql : q ≤ 0 := by omega
        simp only [if_neg hq]
        have htrue : (("" : String) == "") = true := rfl
        simp only [htrue, if_true]
        refine ⟨rfl, hpos, ?_, ?_, rfl⟩
        · intro hlt
          simp only [itemCount, SrvState.cart] at hlt
          exact h3 hlt
        · intro hc0
          simp only [itemCount, SrvState.cart] at hc0
          exact h4 hql hc0

/-- updateBasket preserves the coupled invariant under an empty schedule
when a business is active: the conflict branch leaves the state intact,
the first-add branch records the origin before mutating, and the
mutation path goes through performBasketUpdate. -/
theorem updateBasket_preserves (b : Business) (i q : Int) (st : ClientState) (env : Env)
    (hg : GoodState st env) (h : env.schedule = []) :
    GoodState (updateBasket (some b) i q st env).st (updateBasket (some b) i q st env).env ∧
    (updateBasket (some b) i q st env).env.schedule = [] := by
  obtain ⟨hcart, hpos, h3, h4, hsync⟩ := hg
  refine ⟨?_, (updateBasket_step_nil (some b) i q st env hsync h).2.1⟩
  rw [updateBasket.eq_def]
  split
  · simp_all
  · split
    · exact ⟨hcart, hpos, h3, h4, hsync⟩
    · dsimp only
      split
      next hcond =>
        refine performBasketUpdate_preserves i q _ env h hcart hpos ?_ ?_ ?_
        · intro _
          rfl
        · intro _ _
          rfl
        · intro hle
          exact absurd hcond (by simp; omega)
      next hcond =>
        refine performBasketUpdate_preserves i q st env h hcart hpos h3 ?_ (fun _ => h4)
        intro hq hc
        exact absurd ⟨hq, by simp [hc]⟩ hcond

/-- C4 amended: restricted to guarded single-item updateBasket mutations
performed while a business is active, with every request succeeding, and
started from a state where the local cart matches the server cart and all
server quantities are positive, the origin invariant holds after every
operation: itemCount positive implies exactly one recorded origin
business, itemCount zero implies a null origin (the origin is set on the
first add into an empty cart and cleared when the cart becomes empty).
The batch reorder path does not maintain this invariant (see the
counterexample). -/
theorem c4_amended_origin_invariant (ops : List BasketOp) (st : ClientState) (env : Env)
    (hg : GoodState st env) (h : env.schedule = [])
    (hb : ∀ op ∈ ops, op.activeBusiness.isSome = true) :
    ∀ r ∈ runBasketOps ops st env,
      (0 < itemCount r.st → r.st.originBusiness.isSome = true) ∧
      (itemCount r.st = 0 → r.st.originBusiness = none) := by
  induction ops generalizing st env with
  | nil =>
      intro r hr
      simp [runBasketOps] at hr
  | cons op ops ih =>
      intro r hr
      simp only [runBasketOps, List.mem_cons] at hr
      obtain ⟨b, hbeq⟩ : ∃ b, op.activeBusiness = some b := by
        have hx := hb op (by simp)
        cases hab : op.activeBusiness with
        | some b => exact ⟨b, rfl⟩
        | none => rw [hab] at hx; simp at hx
      have hp := updateBasket_preserves b op.itemId op.newQuantity st env
        ⟨hg.1, hg.2.1, hg.2.2.1, hg.2.2.2.1, hg.2.2.2.2⟩ h
      rcases hr with h0 | h0
      · subst h0
        rw [hbeq]
        exact ⟨hp.1.2.2.1, hp.1.2.2.2.1⟩
      · rw [hbeq] at h0
        exact ih _ _ hp.1 hp.2 (fun o ho => hb o (by simp [ho])) r h0

/-- Witness for C4 amended at a concrete input: after adding product 42
into the empty initial cart, the origin conditions hold. -/
theorem c4_amended_origin_invariant_witness :
    (0 < itemCount (updateBasket (some bizA) 42 1 stInit envInit).st →
      (updateBasket (some bizA) 42 1 stInit envInit).st.originBusiness.isSome = true) ∧
    (itemCount (updateBasket (some bizA) 42 1 stInit envInit).st = 0 →
      (updateBasket (some bizA) 42 1 stInit envInit).st.originBusiness = none) :=
  c4_amended_origin_invariant
    [{ activeBusiness := some bizA, itemId := 42, newQuantity := 1 }]
    stInit envInit (by simp only [GoodState]; decide) rfl (by decide)
    (updateBasket (some bizA) 42 1 stInit envInit) (by simp [runBasketOps])

/-- Counterexample to C4: the initial state satisfies the coupled
invariant, yet one batch reorder of a single previous-order line item
(a modeled operation the claim includes) leaves a cart with positive
itemCount and no recorded origin business: reorderItems never sets the
origin. -/
theorem c4_counterexample :
    GoodState stInit envInit ∧
    0 < itemCount (reorderItems [{ product_id := 5, quantity := 2 }] stInit envInit).st ∧
    (reorderItems [{ product_id := 5, quantity := 2 }] stInit envInit).st.originBusiness
      = none := by
  refine ⟨by simp only [GoodState]; decide, by decide, by decide⟩

/-- C5: with a non-empty cart of origin business A and an add attempt of
a positive quantity for business B with a different id, and all requests
succeeding: the guard records the pending add and shows the conflict
modal without issuing any request, leaving the Cart, the origin and the
environment unchanged; resolving with keepExisting discards the pending
add and leaves the cart and origin A as they were; resolving with
clearAndAdd issues the clear request, sets the origin to B, performs the
originally pending add and re-fetches, after which the server cart holds
exactly the pending quantity and the local cart equals it. -/
theorem c5_conflict_flow (st : ClientState) (env : Env) (A B : Business) (c : Cart)
    (i q : Int) (tk : String)
    (hcart : st.cart = some c) (hne : 0 < c.items_count)
    (horig : st.originBusiness = some A) (hAB : B.id ≠ A.id)
    (hsync : st.isSyncing = false) (hq : 0 < q)
    (htok : st.cartToken = some tk) (hsch : env.schedule = []) :
    (updateBasket (some B) i q st env).sent = [] ∧
    (updateBasket (some B) i q st env).env = env ∧
    (updateBasket (some B) i q st env).st.cart = st.cart ∧
    (updateBasket (some B) i q st env).st.originBusiness = some A ∧
    (updateBasket (some B) i q st env).st.pendingItem = some (i, q) ∧
    (updateBasket (some B) i q st env).st.conflictModalVisible = true ∧
    (handleKeepExisting (updateBasket (some B) i q st env).st).cart = st.cart ∧
    (handleKeepExisting (updateBasket (some B) i q st env).st).originBusiness = some A ∧
    (handleKeepExisting (updateBasket (some B) i q st env).st).pendingItem = none ∧
    (handleClearAndAdd (some B) (updateBasket (some B) i q st env).st env).sent =
      [{ method := Method.DELETE, endpoint := "/cart/items",
         payload := CartPayload.emptyPayload, cartTokenHeader := some tk },
       { method := Method.POST, endpoint := "/cart/items",
         payload := CartPayload.addItem (toString i) q, cartTokenHeader := some tk },
       { method := Method.GET, endpoint := "/cart",
         payload := CartPayload.emptyPayload, cartTokenHeader := some tk }] ∧
    (handleClearAndAdd (some B) (updateBasket (some B) i q st env).st env).st.originBusiness
      = some B ∧
    (handleClearAndAdd (some B) (updateBasket (some B) i q st env).st env).st.cart =
      some (SrvState.cart
        (handleClearAndAdd (some B) (updateBasket (some B) i q st env).st env).env.srv) ∧
    ((handleClearAndAdd (some B) (updateBasket (some B) i q st env).st env).env.srv.items.map
      (fun x => x.quantity)) = [q] := by
  have hcond : q > 0 ∧ itemCount st > 0 ∧
      (match st.originBusiness with
       | some origin => Option.map Business.id (some B) != some origin.id
       | none => false) = true := by
    refine ⟨hq, ?_, ?_⟩
    · simp only [itemCount, hcart]
      exact hne
    · rw [horig]
      simp [hAB]
  have ha : updateBasket (some B) i q st env =
      { st := { st with pendingItem := some (i, q), conflictModalVisible := true },
        env := env, sent := [], threw := false } := by
    rw [updateBasket.eq_def]
    rw [if_neg (by simp [hsync]), if_pos hcond]
  rw [ha]
  have hkey : handleClearAndAdd (some B)
      { st with pendingItem := some (i, q), conflictModalVisible := true } env =
      { st :=
          { cart := some (SrvState.cart { items := [{ id := (toString i).toInt?.getD 0, key := "k" ++ toString env.srv.nextKey, quantity := q }], nextKey := env.srv.nextKey + 1 }),
            cartToken := st.cartToken,
            storedToken := st.storedToken,
            originBusiness := some B,
            storedOrigin := some B,
            isSyncing := false,
            pendingItem := none,
            conflictModalVisible := false,
            isDelivery := st.isDelivery },
        env :=
          { srv := { items := [{ id := (toString i).toInt?.getD 0, key := "k" ++ toString env.srv.nextKey, quantity := q }], nextKey := env.srv.nextKey + 1 },
            schedule := [] },
        sent :=
          [{ method := Method.DELETE, endpoint := "/cart/items",
             payload := CartPayload.emptyPayload, cartTokenHeader := st.cartToken },
           { method := Method.POST, endpoint := "/cart/items",
             payload := CartPayload.addItem (toString i) q, cartTokenHeader := st.cartToken },
           { method := Method.GET, endpoint := "/cart",
             payload := CartPayload.emptyPayload, cartTokenHeader := st.cartToken }],
        threw := false } := by
    rw [handleClearAndAdd.eq_def]
    dsimp only
    rw [clearCart.eq_def, if_pos (by simp [htok]), requestStore_nil _ _ _ _ _ hsch,
      srvApply_clear]
    rw [performBasketUpdate_nil _ _ _ _ rfl]
    simp only [getCartUpdateEndpoint]
    rw [if_neg (by decide)]
    rw [srvApply_add_items]
    simp only [srvAddItem, List.find?_nil]
    rw [if_neg ?hq0]
    case hq0 =>
      have hqne : q ≠ 0 := by omega
      simp [SrvState.cart, srvItemsCount, hqne]
    rfl
  rw [hkey, htok]
  refine ⟨rfl, rfl, rfl, horig, rfl, rfl, rfl, horig, rfl, rfl, rfl, rfl, ?_⟩
  simp [SrvState.cart]

/-- Client state holding cartA7 with origin business A and token t, idle. -/
def stA : ClientState :=
  { cart := some cartA7, cartToken := some "t", storedToken := some "t",
    originBusiness := some bizA, storedOrigin := some bizA, isSyncing := false,
    pendingItem := none, conflictModalVisible := false, isDelivery := true }

/-- Witness for C5 at a concrete input: a cross-business add on a
non-empty cart is a request-free conflict, and clear-and-add ends with
origin B and exactly the pending quantity on the server. -/
theorem c5_conflict_flow_witness :
    (updateBasket (some bizB) 9 1 stA envA7).sent = [] ∧
    (handleClearAndAdd (some bizB) (updateBasket (some bizB) 9 1 stA envA7).st
      envA7).st.originBusiness = some bizB ∧
    ((handleClearAndAdd (some bizB) (updateBasket (some bizB) 9 1 stA envA7).st
      envA7).env.srv.items.map (fun x => x.quantity)) = [1] := by
  have h := c5_conflict_flow stA envA7 bizA bizB cartA7 9 1 "t"
    rfl (by decide) rfl (by decide) rfl (by decide) rfl rfl
  exact ⟨h.1, h.2.2.2.2.2.2.2.2.2.2.1, h.2.2.2.2.2.2.2.2.2.2.2.2⟩

/-- Behavior of the request helper when the head of the schedule is a
plain success without token rotation: the request succeeds against the
server and the rest of the schedule remains. -/
theorem requestStore_ok_step (st : ClientState) (env : Env) (m : Method) (e : String)
    (p : CartPayload) (step : NetStep) (rest : List NetStep)
    (h : env.schedule = step :: rest) (hok : step.httpOk = true)
    (htk : step.respToken = none) :
    requestStore st env m e p =
      { result := Except.ok (if m == Method.DELETE then Resp.emptyArr
                             else (srvApply env.srv m e p step.subStatuses).2),
        st := st,
        env := { srv := (srvApply env.srv m e p step.subStatuses).1, schedule := rest },
        sent := [{ method := m, endpoint := e, payload := p,
                   cartTokenHeader := st.cartToken }] } := by
  obtain ⟨srv, sched⟩ := env
  simp only [Env.schedule] at h
  subst h
  cases m <;> simp [requestStore, Env.next, hok, htk]

/-- Statuses padded from an empty schedule entry are all 200. -/
theorem padStatuses_nil_lt (n : Nat) : ∀ x ∈ padStatuses n [], x < 400 := by
  intro x hx
  simp only [padStatuses, List.mem_map] at hx
  obtain ⟨j, _, rfl⟩ := hx
  simp

/-- A batch whose padded statuses are all below 400 reports no failed
sub-request. -/
theorem countFailedSubs_all_ok (sts : List Nat) (hlt : ∀ x ∈ sts, x < 400) :
    countFailedSubs (Resp.batchResp sts) = 0 := by
  simp only [countFailedSubs, List.length_eq_zero]
  rw [List.filter_eq_nil_iff]
  intro a ha
  simp only [decide_eq_true_eq]
  have := hlt a ha
  omega

/-- A batch padded from an empty schedule entry reports no failure. -/
theorem countFailed_pad_nil (n : Nat) :
    countFailedSubs (Resp.batchResp (padStatuses n [])) = 0 :=
  countFailedSubs_all_ok _ (padStatuses_nil_lt n)

/-- A batch with a sub-status of at least 400 reports a failure. -/
theorem countFailedSubs_pos (sts : List Nat) (hx : ∃ x ∈ sts, 400 ≤ x) :
    0 < countFailedSubs (Resp.batchResp sts) := by
  obtain ⟨x, hm, hge⟩ := hx
  have hmem : x ∈ sts.filter (fun s => 400 ≤ s) :=
    List.mem_filter.mpr ⟨hm, by simpa⟩
  simpa [countFailedSubs] using List.length_pos.mpr (List.ne_nil_of_mem hmem)

/-- Shared sub-failure behavior of reorderItems: when the batch response
carries a status of at least 400, the operation is treated as failed and
the engine resynchronizes with a final GET /cart, without re-throwing:
the trace is clear, batch, GET, the local cart equals the server cart and
no exception escapes. -/
theorem reorderItems_subfail (items : List ReorderItem) (st : ClientState) (env : Env)
    (tk : String) (sts : List Nat)
    (hne : items ≠ []) (hsync : st.isSyncing = false) (htok : st.cartToken = some tk)
    (hsch : env.schedule = [defaultStep, { httpOk := true, respToken := none, subStatuses := sts }])
    (hfail : ∃ x ∈ padStatuses items.length sts, 400 ≤ x) :
    (reorderItems items st env).sent =
      [{ method := Method.DELETE, endpoint := "/cart/items",
         payload := CartPayload.emptyPayload, cartTokenHeader := some tk },
       { method := Method.POST, endpoint := "/batch",
         payload := CartPayload.batchBody (items.map (fun item =>
           { path := "/wc/store/v1/cart/add-item", method := Method.POST,
             body_id := item.product_id, body_quantity := item.quantity,
             cartTokenHeader := some tk })),
         cartTokenHeader := some tk },
       { method := Method.GET, endpoint := "/cart",
         payload := CartPayload.emptyPayload, cartTokenHeader := some tk }] ∧
    (reorderItems items st env).st.cart =
      some (SrvState.cart (reorderItems items st env).env.srv) ∧
    (reorderItems items st env).threw = false := by
  have hlen : (items.length == 0) = false := by
    simp only [beq_eq_false_iff_ne, ne_eq, List.length_eq_zero]
    exact hne
  rw [reorderItems.eq_def]
  rw [if_neg (by simp [hsync])]
  dsimp only
  rw [clearCart.eq_def, if_pos (by simp [htok]),
    requestStore_ok_step _ _ _ _ _ _ _ hsch rfl rfl, srvApply_clear]
  dsimp only
  rw [if_neg (by simp [hlen])]
  rw [sendWooCommerceCartBatch, requestStore_ok_step _ _ _ _ _ _ _ rfl rfl rfl,
    srvApply_batch]
  dsimp only
  rw [if_pos ?hasfail]
  case hasfail =>
    rw [List.length_map]
    exact countFailedSubs_pos _ hfail
  rw [reorderCatchResync.eq_def, getWooCommerceCart_nil _ _ rfl]
  dsimp only
  simp [htok, respAsCart]

/-- C6 amended: for every non-empty list of previous-order line items,
with a cart token held, batchAdd (reorderItems) issues exactly one clear
request plus one POST /batch containing one add-item sub-request per
input line item (never one add request per item), followed by one GET
/cart; and when any sub-request of the batch reports a status of at
least 400 the whole operation is treated as failed and the engine
force-resynchronizes with a GET /cart re-fetch, the final local Cart
matching the server rather than a partially applied local guess (the
failure is not re-thrown).  For the empty list the code clears and
re-fetches without any batch request (see the counterexample). -/
theorem c6_amended_batch_reorder (items : List ReorderItem) (st : ClientState) (env : Env)
    (tk : String) (sts : List Nat)
    (hne : items ≠ []) (hsync : st.isSyncing = false) (htok : st.cartToken = some tk) :
    (env.schedule = [] →
      (reorderItems items st env).sent =
        [{ method := Method.DELETE, endpoint := "/cart/items",
           payload := CartPayload.emptyPayload, cartTokenHeader := some tk },
         { method := Method.POST, endpoint := "/batch",
           payload := CartPayload.batchBody (items.map (fun item =>
             { path := "/wc/store/v1/cart/add-item", method := Method.POST,
               body_id := item.product_id, body_quantity := item.quantity,
               cartTokenHeader := some tk })),
           cartTokenHeader := some tk },
         { method := Method.GET, endpoint := "/cart",
           payload := CartPayload.emptyPayload, cartTokenHeader := some tk }] ∧
      (reorderItems items st env).st.cart =
        some (SrvState.cart (reorderItems items st env).env.srv) ∧
      (reorderItems items st env).threw = false) ∧
    (env.schedule = [defaultStep, { httpOk := true, respToken := none, subStatuses := sts }] →
      (∃ x ∈ padStatuses items.length sts, 400 ≤ x) →
      (reorderItems items st env).sent =
        [{ method := Method.DELETE, endpoint := "/cart/items",
           payload := CartPayload.emptyPayload, cartTokenHeader := some tk },
         { method := Method.POST, endpoint := "/batch",
           payload := CartPayload.batchBody (items.map (fun item =>
             { path := "/wc/store/v1/cart/add-item", method := Method.POST,
               body_id := item.product_id, body_quantity := item.quantity,
               cartTokenHeader := some tk })),
           cartTokenHeader := some tk },
         { method := Method.GET, endpoint := "/cart",
           payload := CartPayload.emptyPayload, cartTokenHeader := some tk }] ∧
      (reorderItems items st env).st.cart =
        some (SrvState.cart (reorderItems items st env).env.srv) ∧
      (reorderItems items st env).threw = false) := by
  have hlen : (items.length == 0) = false := by
    simp only [beq_eq_false_iff_ne, ne_eq, List.length_eq_zero]
    exact hne
  constructor
  · intro hsch
    rw [reorderItems.eq_def]
    rw [if_neg (by simp [hsync])]
    dsimp only
    rw [clearCart.eq_def, if_pos (by simp [htok]), requestStore_nil _ _ _ _ _ hsch,
      srvApply_clear]
    dsimp only
    rw [if_neg (by simp [hlen])]
    rw [sendWooCommerceCartBatch, requestStore_nil _ _ _ _ _ rfl, srvApply_batch]
    dsimp only
    rw [if_neg ?nofail]
    case nofail =>
      simp [countFailed_pad_nil]
    rw [getWooCommerceCart_nil _ _ rfl]
    dsimp only
    simp [htok, respAsCart]
  · intro hsch hfail
    exact reorderItems_subfail items st env tk sts hne hsync htok hsch hfail

/-- Initial empty-cart client state holding cart token t. -/
def stTok : ClientState :=
  { stInit with cartToken := some "t", storedToken := some "t" }

/-- Environment whose schedule makes the first sub-request of the second
request (the batch) fail with status 500. -/
def envSubFail : Env :=
  { srv := { items := [], nextKey := 0 },
    schedule := [defaultStep, { httpOk := true, respToken := none, subStatuses := [500] }] }

/-- Counterexample to C6: for the empty list of previous-order line items,
reorderItems issues the clear and a plain GET /cart but no batch request
at all, not the claimed one clear plus one batch for every list. -/
theorem c6_counterexample :
    (reorderItems [] stTok envInit).sent =
      [{ method := Method.DELETE, endpoint := "/cart/items",
         payload := CartPayload.emptyPayload, cartTokenHeader := some "t" },
       { method := Method.GET, endpoint := "/cart",
         payload := CartPayload.emptyPayload, cartTokenHeader := some "t" }] ∧
    ((reorderItems [] stTok envInit).sent.filter
      (fun r => r.endpoint == "/batch")).length = 0 := by
  decide

/-- Witness for C6 amended at concrete inputs: two reordered items give
clear plus one two-item batch plus GET on success, and with a failing
sub-status the engine resyncs, the local cart matching the server. -/
theorem c6_amended_batch_reorder_witness :
    (reorderItems [{ product_id := 5, quantity := 2 }, { product_id := 6, quantity := 1 }]
      stTok envInit).sent =
      [{ method := Method.DELETE, endpoint := "/cart/items",
         payload := CartPayload.emptyPayload, cartTokenHeader := some "t" },
       { method := Method.POST, endpoint := "/batch",
         payload := CartPayload.batchBody
           [{ path := "/wc/store/v1/cart/add-item", method := Method.POST,
              body_id := 5, body_quantity := 2, cartTokenHeader := some "t" },
            { path := "/wc/store/v1/cart/add-item", method := Method.POST,
              body_id := 6, body_quantity := 1, cartTokenHeader := some "t" }],
         cartTokenHeader := some "t" },
       { method := Method.GET, endpoint := "/cart",
         payload := CartPayload.emptyPayload, cartTokenHeader := some "t" }] ∧
    (reorderItems [{ product_id := 5, quantity := 2 }, { product_id := 6, quantity := 1 }]
      stTok envInit).st.cart =
      some (SrvState.cart (reorderItems
        [{ product_id := 5, quantity := 2 }, { product_id := 6, quantity := 1 }]
        stTok envInit).env.srv) ∧
    (reorderItems [{ product_id := 5, quantity := 2 }, { product_id := 6, quantity := 1 }]
      stTok envSubFail).st.cart =
      some (SrvState.cart (reorderItems
        [{ product_id := 5, quantity := 2 }, { product_id := 6, quantity := 1 }]
        stTok envSubFail).env.srv) ∧
    (reorderItems [{ product_id := 5, quantity := 2 }, { product_id := 6, quantity := 1 }]
      stTok envSubFail).threw = false := by
  have h1 := (c6_amended_batch_reorder
    [{ product_id := 5, quantity := 2 }, { product_id := 6, quantity := 1 }]
    stTok envInit "t" [500] (by decide) rfl rfl).1 rfl
  have h2 := (c6_amended_batch_reorder
    [{ product_id := 5, quantity := 2 }, { product_id := 6, quantity := 1 }]
    stTok envSubFail "t" [500] (by decide) rfl rfl).2 rfl (by decide)
  exact ⟨h1.1, h1.2.1, h2.2.1, h2.2.2⟩

/-- Behavior of the request helper when the head of the schedule is a
failure without a token header: the error is thrown to the caller, the
server is untouched and only the schedule advances. -/
theorem requestStore_fail_step (st : ClientState) (env : Env) (m : Method) (e : String)
    (p : CartPayload) (step : NetStep) (rest : List NetStep)
    (h : env.schedule = step :: rest) (hok : step.httpOk = false)
    (htk : step.respToken = none) :
    requestStore st env m e p =
      { result := Except.error (), st := st,
        env := { srv := env.srv, schedule := rest },
        sent := [{ method := m, endpoint := e, payload := p,
                   cartTokenHeader := st.cartToken }] } := by
  obtain ⟨srv, sched⟩ := env
  simp only [Env.schedule] at h
  subst h
  simp [requestStore, Env.next, hok, htk]

/-- Environment holding itemA7 whose next request fails. -/
def envFailOnce : Env :=
  { srv := { items := [itemA7], nextKey := 1 },
    schedule := [{ httpOk := false, respToken := none, subStatuses := [] }] }

/-- Counterexample to C7: a failing removal mutation (DELETE of item 7
answered with a non-success status) is not thrown to the calling UI
layer: updateBasket attempts exactly the one mutation request, swallows
the error (threw stays false for the caller) and leaves the local Cart
untouched.  The error never propagates past performBasketUpdate's catch
block. -/
theorem c7_counterexample :
    (updateBasket (some bizA) 7 0 stA envFailOnce).sent.length = 1 ∧
    (updateBasket (some bizA) 7 0 stA envFailOnce).threw = false ∧
    (updateBasket (some bizA) 7 0 stA envFailOnce).st.cart = some cartA7 := by
  decide

/-- C7 amended: the request helper of apiService does throw network and
non-success failures to its direct callers, but performBasketUpdate
catches and logs them without re-throwing to the UI layer, leaving the
local Cart variable unchanged; and a batch sub-request failure triggers
the forced full re-fetch (final GET /cart, local cart equal to the
server) and is likewise swallowed, not re-thrown. -/
theorem c7_amended_error_handling :
    (∀ (st : ClientState) (env : Env) (m : Method) (e : String) (p : CartPayload)
       (step : NetStep) (rest : List NetStep),
      env.schedule = step :: rest → step.httpOk = false →
      (requestStore st env m e p).result.isOk = false) ∧
    (∀ (i q : Int) (st : ClientState) (env : Env) (step : NetStep) (rest : List NetStep),
      env.schedule = step :: rest → step.httpOk = false → step.respToken = none →
      (performBasketUpdate i q st env).threw = false ∧
      (performBasketUpdate i q st env).st.cart = st.cart) ∧
    (∀ (items : List ReorderItem) (st : ClientState) (env : Env) (tk : String)
       (sts : List Nat),
      items ≠ [] → st.isSyncing = false → st.cartToken = some tk →
      env.schedule = [defaultStep, { httpOk := true, respToken := none, subStatuses := sts }] →
      (∃ x ∈ padStatuses items.length sts, 400 ≤ x) →
      (reorderItems items st env).threw = false ∧
      (reorderItems items st env).st.cart =
        some (SrvState.cart (reorderItems items st env).env.srv) ∧
      (∃ g, (reorderItems items st env).sent.getLast? = some g ∧
        g.method = Method.GET ∧ g.endpoint = "/cart")) := by
  refine ⟨?_, ?_, ?_⟩
  · intro st env m e p step rest h hok
    obtain ⟨srv, sched⟩ := env
    simp only [Env.schedule] at h
    subst h
    simp [requestStore, Env.next, hok, Except.isOk, Except.toBool]
  · intro i q st env step rest h hok htk
    rw [performBasketUpdate.eq_def]
    dsimp only
    split
    · exact ⟨rfl, rfl⟩
    · rw [sendWooCommerceCartUpdate, requestStore_fail_step _ _ _ _ _ _ _ h hok htk]
      exact ⟨rfl, rfl⟩
  · intro items st env tk sts hne hsync htok hsch hfail
    have h := reorderItems_subfail items st env tk sts hne hsync htok hsch hfail
    refine ⟨h.2.2, h.2.1, ?_⟩
    rw [h.1]
    exact ⟨_, rfl, rfl, rfl⟩

/-- Witness for C7 amended at concrete inputs: the helper fails, the
basket update swallows, and a batch sub-failure resyncs and is swallowed. -/
theorem c7_amended_error_handling_witness :
    (requestStore stA envFailOnce Method.DELETE "/cart/items/abc"
      CartPayload.emptyPayload).result.isOk = false ∧
    ((performBasketUpdate 7 0 stA envFailOnce).threw = false ∧
      (performBasketUpdate 7 0 stA envFailOnce).st.cart = stA.cart) ∧
    ((reorderItems [{ product_id := 5, quantity := 2 }] stTok envSubFail).threw = false ∧
      (reorderItems [{ product_id := 5, quantity := 2 }] stTok envSubFail).st.cart =
        some (SrvState.cart
          (reorderItems [{ product_id := 5, quantity := 2 }] stTok envSubFail).env.srv) ∧
      (∃ g, (reorderItems [{ product_id := 5, quantity := 2 }]
          stTok envSubFail).sent.getLast? = some g ∧
        g.method = Method.GET ∧ g.endpoint = "/cart")) :=
  ⟨c7_amended_error_handling.1 stA envFailOnce Method.DELETE "/cart/items/abc"
      CartPayload.emptyPayload _ _ rfl rfl,
   c7_amended_error_handling.2.1 7 0 stA envFailOnce _ _ rfl rfl rfl,
   c7_amended_error_handling.2.2 [{ product_id := 5, quantity := 2 }] stTok envSubFail
      "t" [500] (by decide) rfl rfl rfl (by decide)⟩

/-- Environment whose next response rotates the cart token to new. -/
def envRot : Env :=
  { srv := { items := [], nextKey := 0 },
    schedule := [{ httpOk := true, respToken := some "new", subStatuses := [] }] }

/-- Environment whose next response echoes the already-held token t. -/
def envRotSame : Env :=
  { srv := { items := [], nextKey := 0 },
    schedule := [{ httpOk := true, respToken := some "t", subStatuses := [] }] }

/-- Counterexample to C8: an explicit cart clear does not clear the
session token: clearCart issues its bulk delete yet both the in-memory
token and the persisted entry still hold the old value afterwards. -/
theorem c8_counterexample :
    (clearCart stTok envInit).sent ≠ [] ∧
    (clearCart stTok envInit).st.cartToken = some "t" ∧
    (clearCart stTok envInit).st.storedToken = some "t" := by
  decide

/-- C8 amended: every request through the store helper carries the
current session token in the Cart-Token header (the header is the held
token, absent when none is held); whenever a response carries a
cart-token header differing from the current token the new value is
written to the in-memory token and to persistent storage, while an
echoed identical token triggers no write; on checkout completion
createOrder saves a null token, which deletes the persisted entry; but
an explicit cart clear leaves the token untouched. -/
theorem c8_amended_token_lifecycle :
    (∀ (st : ClientState) (env : Env) (m : Method) (e : String) (p : CartPayload),
      (requestStore st env m e p).sent =
        [{ method := m, endpoint := e, payload := p, cartTokenHeader := st.cartToken }]) ∧
    (∀ (st : ClientState) (env : Env) (m : Method) (e : String) (p : CartPayload)
       (step : NetStep) (rest : List NetStep) (newTok : String),
      env.schedule = step :: rest → step.respToken = some newTok →
      some newTok ≠ st.cartToken →
      (requestStore st env m e p).st.cartToken = some newTok ∧
      (requestStore st env m e p).st.storedToken = some newTok) ∧
    (∀ (st : ClientState) (env : Env) (m : Method) (e : String) (p : CartPayload)
       (step : NetStep) (rest : List NetStep) (tok : String),
      env.schedule = step :: rest → step.respToken = some tok →
      st.cartToken = some tok →
      (requestStore st env m e p).st = st) ∧
    (∀ (st : ClientState) (env : Env), env.schedule = [] →
      (createOrder st env).st.cartToken = none ∧
      (createOrder st env).st.storedToken = none) ∧
    (∀ (st : ClientState) (env : Env), env.schedule = [] →
      (clearCart st env).st.cartToken = st.cartToken ∧
      (clearCart st env).st.storedToken = st.storedToken) := by
  refine ⟨?_, ?_, ?_, ?_, ?_⟩
  · intro st env m e p
    obtain ⟨srv, sched⟩ := env
    cases sched <;>
      simp only [requestStore, Env.next] <;>
      split <;> split <;> try rfl
  · intro st env m e p step rest newTok h htk hne
    obtain ⟨srv, sched⟩ := env
    simp only [Env.schedule] at h
    subst h
    have hcond : step.respToken.isSome = true ∧ step.respToken ≠ st.cartToken := by
      rw [htk]
      exact ⟨rfl, hne⟩
    simp only [requestStore, Env.next, if_pos hcond]
    split <;> (try split) <;> simp [htk]
  · intro st env m e p step rest tok h htk hcur
    obtain ⟨srv, sched⟩ := env
    simp only [Env.schedule] at h
    subst h
    have hcond : ¬(step.respToken.isSome = true ∧ step.respToken ≠ st.cartToken) := by
      rw [htk, hcur]
      simp
    simp only [requestStore, Env.next, if_neg hcond]
    split <;> (try split) <;> rfl
  · intro st env h
    rw [createOrder, requestStore_nil _ _ _ _ _ h]
    exact ⟨rfl, rfl⟩
  · intro st env h
    rw [clearCart.eq_def]
    by_cases htk : st.cartToken.isSome = true
    · rw [if_pos htk, requestStore_nil _ _ _ _ _ h]
      exact ⟨rfl, rfl⟩
    · rw [if_neg htk]
      exact ⟨rfl, rfl⟩

/-- Witness for C8 amended at concrete inputs: the header carries the
held token, a differing response token is persisted, an echoed token is
not re-written, checkout clears the token, and clearCart leaves it. -/
theorem c8_amended_token_lifecycle_witness :
    (requestStore stTok envInit Method.GET "/cart" CartPayload.emptyPayload).sent =
      [{ method := Method.GET, endpoint := "/cart", payload := CartPayload.emptyPayload,
         cartTokenHeader := some "t" }] ∧
    ((requestStore stTok envRot Method.GET "/cart" CartPayload.emptyPayload).st.cartToken
        = some "new" ∧
      (requestStore stTok envRot Method.GET "/cart"
        CartPayload.emptyPayload).st.storedToken = some "new") ∧
    (requestStore stTok envRotSame Method.GET "/cart" CartPayload.emptyPayload).st = stTok ∧
    ((createOrder stTok envInit).st.cartToken = none ∧
      (createOrder stTok envInit).st.storedToken = none) ∧
    ((clearCart stTok envInit).st.cartToken = stTok.cartToken ∧
      (clearCart stTok envInit).st.storedToken = stTok.storedToken) :=
  ⟨c8_amended_token_lifecycle.1 stTok envInit Method.GET "/cart" CartPayload.emptyPayload,
   c8_amended_token_lifecycle.2.1 stTok envRot Method.GET "/cart" CartPayload.emptyPayload
     _ _ "new" rfl rfl (by decide),
   c8_amended_token_lifecycle.2.2.1 stTok envRotSame Method.GET "/cart"
     CartPayload.emptyPayload _ _ "t" rfl rfl rfl,
   c8_amended_token_lifecycle.2.2.2.1 stTok envInit rfl,
   c8_amended_token_lifecycle.2.2.2.2 stTok envInit rfl⟩

/-- Counterexample to C9: with no cart token held, clear() issues no
request at all and returns undefined (not an empty Cart): the TS function
falls through its token guard. -/
theorem c9_counterexample :
    (clearCart stInit envInit).sent = [] ∧
    (clearCart stInit envInit).result = Except.ok none ∧
    (clearCart stInit envInit).st = stInit ∧
    (clearCart stInit envInit).env = envInit :=
  ⟨rfl, rfl, rfl, rfl⟩

/-- C9 amended: clear() issues the bulk DELETE /cart/items only when a
cart token is currently held, in which case the server cart is emptied
and the caller receives the empty-array placeholder the request helper
returns for every DELETE (not a server Cart object); with no token held
it is a no-op returning undefined. -/
theorem c9_amended_clear :
    (∀ (st : ClientState) (env : Env) (tk : String),
      st.cartToken = some tk → env.schedule = [] →
      (clearCart st env).sent =
        [{ method := Method.DELETE, endpoint := "/cart/items",
           payload := CartPayload.emptyPayload, cartTokenHeader := some tk }] ∧
      (clearCart st env).result = Except.ok (some Resp.emptyArr) ∧
      (clearCart st env).env.srv.items = []) ∧
    (∀ (st : ClientState) (env : Env), st.cartToken = none →
      (clearCart st env).sent = [] ∧
      (clearCart st env).result = Except.ok none ∧
      (clearCart st env).st = st ∧ (clearCart st env).env = env) := by
  constructor
  · intro st env tk htk h
    rw [clearCart.eq_def, if_pos (by simp [htk]), requestStore_nil _ _ _ _ _ h,
      srvApply_clear]
    dsimp only
    exact ⟨by rw [htk], rfl, rfl⟩
  · intro st env htk
    rw [clearCart.eq_def, if_neg (by simp [htk])]
    exact ⟨rfl, rfl, rfl, rfl⟩

/-- Witness for C9 amended at concrete inputs: with a token the clear
issues exactly the bulk delete and gets the empty-array placeholder;
without one it is a request-free no-op. -/
theorem c9_amended_clear_witness :
    ((clearCart stTok envInit).sent =
      [{ method := Method.DELETE, endpoint := "/cart/items",
         payload := CartPayload.emptyPayload, cartTokenHeader := some "t" }] ∧
     (clearCart stTok envInit).result = Except.ok (some Resp.emptyArr) ∧
     (clearCart stTok envInit).env.srv.items = []) ∧
    ((clearCart stInit envInit).sent = [] ∧
     (clearCart stInit envInit).result = Except.ok none ∧
     (clearCart stInit envInit).st = stInit ∧
     (clearCart stInit envInit).env = envInit) :=
  ⟨c9_amended_clear.1 stTok envInit "t" rfl rfl,
   c9_amended_clear.2 stInit envInit rfl⟩

/-- C10: on every successful DELETE request the helper returns the empty
array to its caller without parsing the response body, whatever the
server sent back: after any successful DELETE step the result is the
empty-array placeholder, and in particular the server model answers an
item deletion with the updated cart body, which the caller never sees. -/
theorem c10_delete_returns_empty_array :
    (∀ (st : ClientState) (env : Env) (e : String) (p : CartPayload)
       (step : NetStep) (rest : List NetStep),
      env.schedule = step :: rest → step.httpOk = true →
      (requestStore st env Method.DELETE e p).result = Except.ok Resp.emptyArr) ∧
    (∀ (st : ClientState) (env : Env) (e : String) (p : CartPayload),
      env.schedule = [] →
      (requestStore st env Method.DELETE e p).result = Except.ok Resp.emptyArr) ∧
    (∀ (s : SrvState) (k : String) (it : LineItem),
      srvFindByEndpoint s ("/cart/items/" ++ k) = some it →
      ∃ c, (srvApply s Method.DELETE ("/cart/items/" ++ k) CartPayload.emptyPayload []).2 =
        Resp.cartBody c) := by
  refine ⟨?_, ?_, ?_⟩
  · intro st env e p step rest h hok
    obtain ⟨srv, sched⟩ := env
    simp only [Env.schedule] at h
    subst h
    simp only [requestStore, Env.next]
    split <;> simp [hok]
  · intro st env e p h
    rw [requestStore_nil _ _ _ _ _ h]
    rfl
  · intro s k it hf
    rw [srvApply_delete_key, hf]
    exact ⟨_, rfl⟩

/-- Witness for C10 at concrete inputs: deleting item key abc succeeds
and the caller receives the empty array, while the server answered that
deletion with a cart body. -/
theorem c10_delete_returns_empty_array_witness :
    (requestStore stTok envRot Method.DELETE "/cart/items/abc"
      CartPayload.emptyPayload).result = Except.ok Resp.emptyArr ∧
    (requestStore stA envA7 Method.DELETE "/cart/items/abc"
      CartPayload.emptyPayload).result = Except.ok Resp.emptyArr ∧
    (∃ c, (srvApply envA7.srv Method.DELETE ("/cart/items/" ++ "abc")
      CartPayload.emptyPayload []).2 = Resp.cartBody c) :=
  ⟨c10_delete_returns_empty_array.1 stTok envRot "/cart/items/abc"
      CartPayload.emptyPayload _ _ rfl rfl,
   c10_delete_returns_empty_array.2.1 stA envA7 "/cart/items/abc"
      CartPayload.emptyPayload rfl,
   c10_delete_returns_empty_array.2.2 envA7.srv "abc" itemA7 (by decide)⟩

end FoodApp
